import Mathlib

/-!
Shallow embedding of the cardio repository bots:
  * `src/blood-pressure-alert-bot.ts` (namespace `AlertBot`)
  * the measurement mapper and the email alert bot found in
    `src/src/helpers/get-measurement-object.ts.bak-16072023`
    (`getMeasurementObject` and namespace `EmailBot`).

Modelling conventions:
  * JavaScript numbers are modelled by `JSNumber` (an integer or NaN); the
    claims only exercise integer values, and JS truthiness of a number
    (`0`, `NaN` and `undefined` are falsy) is `JSNumber.truthy` on
    `Option JSNumber`.
  * Optional FHIR fields are `Option` fields; optional chaining `a?.b`
    becomes `Option.bind`.
  * `new Date().toISOString()` and locale formatting are modelled as data
    carried by the environment (`Env.now`, `Env.nowLocale`, `Env.toLocale`):
    the bots only embed these strings into resources, never branch on them.
  * Effectful calls (Medplum reads/searches/creates, SES sends) are modelled
    by the monad `M`: a state-passing trace of externally visible write
    effects together with JS exception propagation (`Except Err`).  The
    environment `Env` fixes the outcome of every external call, so each run
    is a deterministic function of the environment.
  * `Number(...)` string parsing is modelled on decimal-digit strings
    (`toNumber`, empty string giving 0 as in JS); strings with other
    characters and the absent value parse to NaN.  No claim exercises
    other inputs.
-/

/-- Error payload thrown by an external collaborator (opaque to the bots). -/
abbrev Err := String

/-- A JavaScript number as used by the bots: an integer value or NaN. -/
inductive JSNumber where
  | nan : JSNumber
  | int (n : Int) : JSNumber
deriving DecidableEq, Repr

/-- JS truthiness of a number: `0` and `NaN` are falsy. -/
def JSNumber.truthy : JSNumber → Bool
  | .nan => false
  | .int n => n != 0

/-- JS `>` against an integer literal: NaN compares false. -/
def JSNumber.gt : JSNumber → Int → Bool
  | .nan, _ => false
  | .int n, k => k < n

/-- JS template interpolation of a number. -/
def JSNumber.render : JSNumber → String
  | .nan => "NaN"
  | .int n => toString n

/-- Accumulating decimal parse of a character list; fails on the first
non-digit. -/
def decDigits : List Char → Nat → Option Nat
  | [], acc => some acc
  | c :: rest, acc =>
    if c.isDigit then decDigits rest (acc * 10 + (c.toNat - 48)) else none

/-- Models `Number(s)` on the strings the bots feed it: decimal-digit
strings parse to their value (the empty string to 0, as in JS), the absent
value and strings with non-digit characters to NaN. -/
def toNumber : Option String → JSNumber
  | none => .nan
  | some s =>
    match decDigits s.data 0 with
    | some n => .int n
    | none => .nan

/-- JS template interpolation of a possibly undefined string. -/
def jsStr (o : Option String) : String := o.getD "undefined"

/-- JS `x || dflt` on a possibly undefined string: `undefined` and the
empty string are falsy. -/
def jsOrStr (o : Option String) (dflt : String) : String :=
  match o with
  | some s => if s = "" then dflt else s
  | none => dflt

/-! ### FHIR resource shapes (only the fields the bots read or build) -/

/-- A FHIR reference. -/
structure Ref where
  reference : Option String := none
  display : Option String := none
deriving DecidableEq, Repr

/-- A FHIR coding. -/
structure Coding where
  code : Option String := none
  system : Option String := none
  display : Option String := none
deriving DecidableEq, Repr

/-- A FHIR codeable concept. -/
structure CodeableConcept where
  coding : Option (List Coding) := none
  text : Option String := none
deriving DecidableEq, Repr

/-- A FHIR quantity; the numeric value is a JS number. -/
structure Quantity where
  value : Option JSNumber := none
  unit : Option String := none
  system : Option String := none
  code : Option String := none
deriving DecidableEq, Repr

/-- One entry of `Observation.component`. -/
structure ObservationComponent where
  code : Option CodeableConcept := none
  valueQuantity : Option Quantity := none
deriving DecidableEq, Repr

/-- A FHIR Observation (resourceType is implicit). -/
structure Observation where
  id : Option String := none
  subject : Option Ref := none
  category : Option (List CodeableConcept) := none
  code : Option CodeableConcept := none
  component : Option (List ObservationComponent) := none
  valueQuantity : Option Quantity := none
  effectiveDateTime : Option String := none
  status : Option String := none
deriving DecidableEq, Repr

/-- A FHIR human name. -/
structure HumanName where
  given : Option (List String) := none
  family : Option String := none
deriving DecidableEq, Repr

/-- A FHIR contact point (telecom entry). -/
structure ContactPoint where
  system : Option String := none
  use : Option String := none
  value : Option String := none
deriving DecidableEq, Repr

/-- A FHIR Patient (fields the bots read). -/
structure Patient where
  id : Option String := none
  name : Option (List HumanName) := none
  generalPractitioner : Option (List Ref) := none
deriving DecidableEq, Repr

/-- A FHIR Practitioner (fields the bots read). -/
structure Practitioner where
  id : Option String := none
  name : Option (List HumanName) := none
  telecom : Option (List ContactPoint) := none
deriving DecidableEq, Repr

/-- One entry of `CareTeam.participant`. -/
structure CareTeamParticipant where
  member : Option Ref := none
deriving DecidableEq, Repr

/-- A FHIR CareTeam (fields the bots read). -/
structure CareTeam where
  participant : Option (List CareTeamParticipant) := none
deriving DecidableEq, Repr

/-- A `meta.tag` entry. -/
structure Tag where
  system : Option String := none
  code : Option String := none
deriving DecidableEq, Repr

/-- Resource metadata (only tags are used). -/
structure Meta where
  tag : Option (List Tag) := none
deriving DecidableEq, Repr

/-- One entry of `Communication.payload`. -/
structure CommunicationPayload where
  contentString : Option String := none
deriving DecidableEq, Repr

/-- A FHIR Communication as built by the bots. -/
structure Communication where
  status : Option String := none
  category : Option (List CodeableConcept) := none
  priority : Option String := none
  subject : Option Ref := none
  recipient : Option (List Ref) := none
  sender : Option Ref := none
  topic : Option CodeableConcept := none
  sent : Option String := none
  payload : Option (List CommunicationPayload) := none
  basedOn : Option (List Ref) := none
  meta : Option Meta := none
deriving DecidableEq, Repr

/-- One entry of `AuditEvent.agent`. -/
structure AuditAgent where
  type : Option CodeableConcept := none
  who : Option Ref := none
  requestor : Option Bool := none
deriving DecidableEq, Repr

/-- The source field of an AuditEvent. -/
structure AuditSource where
  observer : Option Ref := none
  type : Option (List Coding) := none
deriving DecidableEq, Repr

/-- One entry of `AuditEvent.entity`. -/
structure AuditEntity where
  what : Option Ref := none
  type : Option Coding := none
deriving DecidableEq, Repr

/-- A FHIR AuditEvent as built by the email bot. -/
structure AuditEvent where
  type : Option Coding := none
  subtype : Option (List Coding) := none
  action : Option String := none
  recorded : Option String := none
  outcome : Option String := none
  agent : Option (List AuditAgent) := none
  source : Option AuditSource := none
  entity : Option (List AuditEntity) := none
deriving DecidableEq, Repr

/-- An SES `SendEmailCommand` (source, destinations, subject, bodies, tags). -/
structure EmailCommand where
  source : String := ""
  toAddresses : List String := []
  ccAddresses : List String := []
  subject : String := ""
  htmlBody : Option String := none
  textBody : Option String := none
  tags : List (String × String) := []
deriving DecidableEq, Repr

/-! ### Effect model -/

/-- An externally visible write effect performed by a bot run. -/
inductive Event where
  | commCreated (c : Communication) : Event
  | auditCreated (a : AuditEvent) : Event
  | emailSent (cmd : EmailCommand) : Event
deriving DecidableEq, Repr

/-- The fixed outcome of every external call, plus ambient data (clock and
process environment).  Defaults make concrete test environments short. -/
structure Env where
  now : String := "2023-07-16T00:00:00.000Z"
  nowLocale : String := "16/7/2023"
  toLocale : String → String := fun s => s
  fromEmailVar : Option String := none
  adminEmailVar : Option String := none
  readPatient : Option Ref → Except Err Patient := fun _ => .error "unres"
  readPractitioner : Option Ref → Except Err Practitioner := fun _ => .error "unres"
  searchCareTeams : String → Except Err (List CareTeam) := fun _ => .ok []
  searchPractitioners : Option String → Except Err (List Practitioner) := fun _ => .ok []
  createComm : Communication → Except Err Communication := fun c => .ok c
  createAudit : AuditEvent → Except Err AuditEvent := fun a => .ok a
  sesSend : EmailCommand → Except Err String := fun _ => .ok "msg-id"

/-- The bot execution monad: JS exception propagation over a trace of the
write effects issued so far.  The trace survives a thrown exception, as the
effects issued before a JS throw have already happened. -/
def M (α : Type) : Type := List Event → Except Err α × List Event

/-- Monadic return for `M`. -/
def M.pure (a : α) : M α := fun tr => (.ok a, tr)

/-- Monadic bind for `M`: an exception short-circuits the rest. -/
def M.bind (x : M α) (f : α → M β) : M β := fun tr =>
  match x tr with
  | (Except.ok a, tr') => f a tr'
  | (Except.error e, tr') => (Except.error e, tr')

instance : Monad M where
  pure := M.pure
  bind := M.bind

/-- Unfolding lemma for `M` bind applied to a trace. -/
theorem M.bind_apply (x : M α) (f : α → M β) (tr : List Event) :
    (x >>= f) tr =
      match x tr with
      | (Except.ok a, tr') => f a tr'
      | (Except.error e, tr') => (Except.error e, tr') := rfl

/-- Unfolding lemma for `M` pure applied to a trace. -/
theorem M.pure_apply (a : α) (tr : List Event) : (Pure.pure a : M α) tr = (.ok a, tr) := rfl

/-- Models medplum.createResource on a Communication: records the write on
success. -/
def doCreateComm (env : Env) (c : Communication) : M Communication := fun tr =>
  match env.createComm c with
  | .ok created => (.ok created, tr ++ [Event.commCreated c])
  | .error e => (.error e, tr)

/-- Models medplum.createResource on an AuditEvent: records the write on
success. -/
def doCreateAudit (env : Env) (a : AuditEvent) : M AuditEvent := fun tr =>
  match env.createAudit a with
  | .ok created => (.ok created, tr ++ [Event.auditCreated a])
  | .error e => (.error e, tr)

/-- Models sesClient.send: records the send on success. -/
def doSesSend (env : Env) (cmd : EmailCommand) : M String := fun tr =>
  match env.sesSend cmd with
  | .ok mid => (.ok mid, tr ++ [Event.emailSent cmd])
  | .error e => (.error e, tr)

/-- Models medplum.readReference resolving to a Patient (a read: no trace event). -/
def doReadPatient (env : Env) (r : Option Ref) : M Patient := fun tr =>
  (env.readPatient r, tr)

/-- Models medplum.readReference resolving to a Practitioner. -/
def doReadPractitioner (env : Env) (r : Option Ref) : M Practitioner := fun tr =>
  (env.readPractitioner r, tr)

/-- Models the CareTeam search of medplum.searchResources with the subject
query string as the argument; the active status filter is fixed. -/
def doSearchCareTeams (env : Env) (subjectQuery : String) : M (List CareTeam) := fun tr =>
  (env.searchCareTeams subjectQuery, tr)

/-- Models the Practitioner search of medplum.searchResources, keyed by the
patient id query parameter. -/
def doSearchPractitioners (env : Env) (patientId : Option String) : M (List Practitioner) := fun tr =>
  (env.searchPractitioners patientId, tr)

/-! ### Shared classifier and extractor

Both bot files define textually identical `isBloodPressureObservation` and
`extractBloodPressureValues`; they are embedded once. -/

/-- The chain patient.name?.[0]?.given?.[0] (and the Practitioner analogue). -/
def firstGiven (name : Option (List HumanName)) : Option String :=
  (name.bind List.head?).bind (fun n => n.given.bind List.head?)

/-- The chain name?.[0]?.family. -/
def firstFamily (name : Option (List HumanName)) : Option String :=
  (name.bind List.head?).bind HumanName.family

/-- The coding list of `observation.code`, empty when `code` or `coding`
is absent. -/
def obsCodings (observation : Observation) : List Coding :=
  (observation.code.bind CodeableConcept.coding).getD []

/-- Lines 21-25 of blood-pressure-alert-bot.ts (and 241-245 of the email
bot): true iff some entry of `code.coding` has code 85354-9 and system
loinc; the optional chain plus `|| false` yields false when `code` or
`coding` is absent. -/
def isBloodPressureObservation (observation : Observation) : Bool :=
  match observation.code with
  | none => false
  | some cc =>
    match cc.coding with
    | none => false
    | some codings =>
      codings.any fun coding =>
        coding.code == some "85354-9" && coding.system == some "http://loinc.org"

/-- The chain component.code?.coding?.[0]?.code. -/
def componentCode (component : ObservationComponent) : Option String :=
  ((component.code.bind CodeableConcept.coding).bind List.head?).bind Coding.code

/-- The chain component.valueQuantity?.value. -/
def componentValue (component : ObservationComponent) : Option JSNumber :=
  component.valueQuantity.bind Quantity.value

/-- The `forEach` body of lines 31-40: update the `(systolic, diastolic)`
accumulator when the first coding code matches and the value is truthy
(`code === ... && value` with JS truthiness). -/
def extractStep (acc : JSNumber × JSNumber) (component : ObservationComponent) :
    JSNumber × JSNumber :=
  let code := componentCode component
  let value := componentValue component
  match value with
  | some v =>
    if code == some "8480-6" && v.truthy then (v, acc.2)
    else if code == some "8462-4" && v.truthy then (acc.1, v)
    else acc
  | none => acc

/-- Lines 27-43 of blood-pressure-alert-bot.ts (and 247-263 of the email
bot): a left-to-right `forEach` over `component` starting from the zero
defaults.  Returns `(systolic, diastolic)`. -/
def extractBloodPressureValues (observation : Observation) : JSNumber × JSNumber :=
  (observation.component.getD []).foldl extractStep (JSNumber.int 0, JSNumber.int 0)

/-! ### The measurement mapper (get-measurement-object.ts) -/

/-- The six labels of the switch in `getMeasurementObject`. -/
def recognizedLabels : List String :=
  ["Presión Arterial", "Temperatura Axilar", "Altura",
   "Frecuencia Respiratoria", "Frecuencia Cardíaca", "Peso"]

/-- Lines 3-201 of get-measurement-object.ts: the switch on the measurement
label.  `now` stands for `new Date().toISOString()` taken at invocation
time; `secondValue` is the optional second argument. -/
def getMeasurementObject (subject : Ref) (type : String) (firstValue : String)
    (secondValue : Option String) (now : String) : Observation :=
  if type = "Presión Arterial" then
    { subject := some subject
      category := some
        [{ coding := some
             [{ code := some "vital-signs"
                system := some "http://terminology.hl7.org/CodeSystem/observation-category"
                display := some "Vital Signs" }] }]
      code := some
        { coding := some
            [{ code := some "85354-9", system := some "http://loinc.org"
               display := some "Blood Pressure" }]
          text := some "Blood Pressure" }
      component := some
        [{ code := some
             { coding := some
                 [{ code := some "8462-4", system := some "http://loinc.org"
                    display := some "Diastolic Blood Pressure" }]
               text := some "Diastolic Blood Pressure" }
           valueQuantity := some
             { value := some (toNumber (some firstValue))
               unit := some "mm[Hg]", system := some "http://unitsofmeasure.org"
               code := some "mm[Hg]" } },
         { code := some
             { coding := some
                 [{ code := some "8480-6", system := some "http://loinc.org"
                    display := some "Systolic Blood Pressure" }]
               text := some "Systolic Blood Pressure" }
           valueQuantity := some
             { value := some (toNumber secondValue)
               unit := some "mm[Hg]", system := some "http://unitsofmeasure.org"
               code := some "mm[Hg]" } }]
      effectiveDateTime := some now
      status := some "final" }
  else if type = "Temperatura Axilar" then
    { subject := some subject
      code := some
        { coding := some
            [{ code := some "8310-5", system := some "http://loinc.org"
               display := some "Body temperature" },
             { code := some "8331-1", system := some "http://loinc.org"
               display := some "Oral temperature" }]
          text := some "Body temperature" }
      valueQuantity := some
        { value := some (toNumber (some firstValue))
          unit := some "Cel", system := some "http://unitsofmeasure.org"
          code := some "Cel" }
      effectiveDateTime := some now
      status := some "final" }
  else if type = "Altura" then
    { subject := some subject
      code := some
        { coding := some
            [{ code := some "8302-2", system := some "http://loinc.org"
               display := some "Body Height" }]
          text := some "Body Height" }
      valueQuantity := some
        { value := some (toNumber (some firstValue))
          unit := some "cm", system := some "http://unitsofmeasure.org"
          code := some "cm" }
      effectiveDateTime := some now
      status := some "final" }
  else if type = "Frecuencia Respiratoria" then
    { subject := some subject
      code := some
        { coding := some
            [{ code := some "9279-1", system := some "http://loinc.org"
               display := some "Respiratory rate" }]
          text := some "Respiratory rate" }
      valueQuantity := some
        { value := some (toNumber (some firstValue))
          unit := some "/min", system := some "http://unitsofmeasure.org"
          code := some "/min" }
      effectiveDateTime := some now
      status := some "final" }
  else if type = "Frecuencia Cardíaca" then
    { subject := some subject
      code := some
        { coding := some
            [{ code := some "8867-4", system := some "http://loinc.org"
               display := some "Heart rate" }]
          text := some "Heart rate" }
      valueQuantity := some
        { value := some (toNumber (some firstValue))
          unit := some "/min", system := some "http://unitsofmeasure.org"
          code := some "/min" }
      effectiveDateTime := some now
      status := some "final" }
  else if type = "Peso" then
    { subject := some subject
      code := some
        { coding := some
            [{ code := some "29463-7", system := some "http://loinc.org"
               display := some "Body Weight" }]
          text := some "Body Weight" }
      valueQuantity := some
        { value := some (toNumber (some firstValue))
          unit := some "kg", system := some "http://unitsofmeasure.org"
          code := some "kg" }
      effectiveDateTime := some now
      status := some "final" }
  else
    {}

/-- The code.coding[0].code selector on an observation (used by §8). -/
def codeCoding0 (o : Observation) : Option String :=
  ((o.code.bind CodeableConcept.coding).bind List.head?).bind Coding.code

/-- The `component[i].code.coding[0].code` list of an observation. -/
def componentCodes (o : Observation) : List (Option String) :=
  (o.component.getD []).map componentCode

/-- The code of the first `meta.tag` entry of a Communication. -/
def firstTagCode (c : Communication) : Option String :=
  (((c.meta.bind Meta.tag).getD []).head?).bind Tag.code

/-- The contentString of the first payload entry of a Communication. -/
def firstPayload (c : Communication) : Option String :=
  ((c.payload.getD []).head?).bind CommunicationPayload.contentString

/-! ### blood-pressure-alert-bot.ts (the no-email variant) -/

namespace AlertBot

/-- Lines 109-129: the patient alert message text. -/
def generateAlertMessage (env : Env) (patient : Patient) (systolic diastolic : JSNumber) :
    String :=
  let patientName := jsOrStr (firstGiven patient.name) "Paciente"
  let ss := systolic.render
  let ds := diastolic.render
  let sysLine := if systolic.gt 140 then s!"{ss} mmHg (>140)" else s!"{ss} mmHg (normal)"
  let diaLine := if diastolic.gt 90 then s!"{ds} mmHg (>90)" else s!"{ds} mmHg (normal)"
  let nowLocale := env.nowLocale
  s!"🚨 ALERTA PRESIÓN ARTERIAL ELEVADA\n\nPaciente: {patientName}\nPresión Arterial: {ss}/{ds} mmHg\n\n⚠️ Valores por encima del rango normal:\n- Sistólica: {sysLine}\n- Diastólica: {diaLine}\n\n📋 Recomendaciones inmediatas:\n- Repetir medición en 15 minutos\n- Verificar técnica de medición correcta\n- Contactar al equipo médico si persiste elevada\n- Revisar medicación antihipertensiva actual\n\nFecha: {nowLocale}\nPlataforma: EPA Bienestar IA"

/-- The Communication literal of lines 74-104 (tag `hta-alert`). -/
def alertCommunication (env : Env) (patient : Patient) (observation : Observation)
    (systolic diastolic : JSNumber) : Communication :=
  let pid := jsStr patient.id
  let oid := jsStr observation.id
  { status := some "completed"
    category := some
      [{ coding := some
           [{ code := some "alert"
              system := some "http://terminology.hl7.org/CodeSystem/communication-category"
              display := some "Alert" }] }]
    priority := some "urgent"
    subject := some { reference := some s!"Patient/{pid}" }
    topic := some { text := some "Alerta: Presión Arterial Elevada" }
    sent := some env.now
    payload := some [{ contentString := some (generateAlertMessage env patient systolic diastolic) }]
    basedOn := some [{ reference := some s!"Observation/{oid}" }]
    meta := some
      { tag := some
          [{ system := some "http://epa-bienestar.com.ar/tags", code := some "hta-alert" }] } }

/-- Lines 64-107: build and create the patient alert Communication. -/
def createAlertCommunication (env : Env) (patient : Patient) (observation : Observation)
    (systolic diastolic : JSNumber) : M Unit := do
  let _ ← doCreateComm env (alertCommunication env patient observation systolic diastolic)
  pure ()

/-- The Communication literal of lines 156-186 (tag `practitioner-alert`). -/
def practitionerNotification (env : Env) (practitioner : Practitioner) (patient : Patient)
    (systolic diastolic : JSNumber) : Communication :=
  let pid := jsStr patient.id
  let prid := jsStr practitioner.id
  let pg := jsStr (firstGiven patient.name)
  let ss := systolic.render
  let ds := diastolic.render
  { status := some "completed"
    category := some
      [{ coding := some
           [{ code := some "notification"
              system := some "http://terminology.hl7.org/CodeSystem/communication-category"
              display := some "Notification" }] }]
    priority := some "urgent"
    subject := some { reference := some s!"Patient/{pid}" }
    recipient := some [{ reference := some s!"Practitioner/{prid}" }]
    topic := some { text := some "Notificación: Paciente con HTA" }
    sent := some env.now
    payload := some
      [{ contentString := some
           s!"Paciente {pg} presenta presión arterial elevada: {ss}/{ds} mmHg. Requiere evaluación médica." }]
    meta := some
      { tag := some
          [{ system := some "http://epa-bienestar.com.ar/tags", code := some "practitioner-alert" }] } }

/-- Lines 148-189: build and create one practitioner notification. -/
def createPractitionerNotification (env : Env) (practitioner : Practitioner) (patient : Patient)
    (systolic diastolic : JSNumber) : M Unit := do
  let _ ← doCreateComm env (practitionerNotification env practitioner patient systolic diastolic)
  pure ()

/-- The sequential `for (const practitioner of practitioners)` loop of
lines 143-145: unguarded awaits, one create per practitioner. -/
def notifyLoop (env : Env) (patient : Patient) (systolic diastolic : JSNumber) :
    List Practitioner → M Unit
  | [] => pure ()
  | practitioner :: rest => do
    createPractitionerNotification env practitioner patient systolic diastolic
    notifyLoop env patient systolic diastolic rest

/-- Lines 131-146: search practitioners by patient id, then loop. -/
def notifyMedicalTeam (env : Env) (patient : Patient) (systolic diastolic : JSNumber) :
    M Unit := do
  let practitioners ← doSearchPractitioners env patient.id
  notifyLoop env patient systolic diastolic practitioners

/-- Lines 45-62: read the patient, create the alert Communication, notify
the medical team. -/
def handleHighBloodPressure (env : Env) (observation : Observation)
    (systolic diastolic : JSNumber) : M Unit := do
  let patient ← doReadPatient env observation.subject
  createAlertCommunication env patient observation systolic diastolic
  notifyMedicalTeam env patient systolic diastolic

/-- Lines 5-19: the bot entry point. -/
def handler (env : Env) (observation : Observation) : M Unit :=
  if !(isBloodPressureObservation observation) then pure ()
  else
    let sd := extractBloodPressureValues observation
    if sd.1.gt 140 || sd.2.gt 90 then
      handleHighBloodPressure env observation sd.1 sd.2
    else pure ()

end AlertBot

/-! ### blood-pressure-email-alert-bot (lines 204-757 of the helper file) -/

namespace EmailBot

/-- Lines 730-756: the patient alert message of the email variant. -/
def generatePatientAlertMessage (env : Env) (patient : Patient)
    (systolic diastolic : JSNumber) : String :=
  let patientName := jsOrStr (firstGiven patient.name) "Paciente"
  let ss := systolic.render
  let ds := diastolic.render
  let sysFlag := if systolic.gt 140 then "(ELEVADA - Normal <140)" else ""
  let diaFlag := if diastolic.gt 90 then "(ELEVADA - Normal <90)" else ""
  let nowLocale := env.nowLocale
  s!"🚨 ALERTA PRESIÓN ARTERIAL ELEVADA\n\nEstimado/a {patientName},\n\nSe ha detectado que su última medición de presión arterial presenta valores elevados:\n\n📊 MEDICIÓN ACTUAL:\n- Presión Sistólica: {ss} mmHg {sysFlag}\n- Presión Diastólica: {ds} mmHg {diaFlag}\n\n⚠️ IMPORTANTE:\nSu médico de cabecera ha sido notificado automáticamente de estos valores.\n\n📋 RECOMENDACIONES INMEDIATAS:\n- Repita la medición en 15 minutos en reposo\n- Verifique que esté tomando su medicación según indicación médica\n- Evite actividad física intensa por el momento\n- Si presenta síntomas como dolor de cabeza, mareos o dolor en el pecho, busque atención médica inmediata\n\n📞 En caso de emergencia, no dude en contactar a su médico o dirigirse al centro de salud más cercano.\n\n💙 EPA Bienestar IA - Cuidando su salud cardiovascular\nFecha: {nowLocale}"

/-- The Communication literal of lines 311-341 (tag `hta-patient-alert`). -/
def bloodPressureCommunication (env : Env) (patient : Patient) (observation : Observation)
    (systolic diastolic : JSNumber) : Communication :=
  let pid := jsStr patient.id
  let oid := jsStr observation.id
  { status := some "completed"
    category := some
      [{ coding := some
           [{ code := some "alert"
              system := some "http://terminology.hl7.org/CodeSystem/communication-category"
              display := some "Alert" }] }]
    priority := some "urgent"
    subject := some { reference := some s!"Patient/{pid}" }
    topic := some { text := some "Alerta: Presión Arterial Elevada" }
    sent := some env.now
    payload := some
      [{ contentString := some (generatePatientAlertMessage env patient systolic diastolic) }]
    basedOn := some [{ reference := some s!"Observation/{oid}" }]
    meta := some
      { tag := some
          [{ system := some "http://epa-bienestar.com.ar/tags"
             code := some "hta-patient-alert" }] } }

/-- Lines 301-344: build and create the patient alert Communication,
returning the created resource. -/
def createBloodPressureCommunication (env : Env) (patient : Patient)
    (observation : Observation) (systolic diastolic : JSNumber) : M Communication :=
  doCreateComm env (bloodPressureCommunication env patient observation systolic diastolic)

/-- JS `s.startsWith(p)`, computed on the character lists. -/
def strStartsWith (s p : String) : Bool :=
  s.data.take p.data.length == p.data

/-- The predicate of line 360: the participant member reference starts
with `Practitioner/` (optional chaining makes a missing member or
reference falsy). -/
def participantIsPractitioner (p : CareTeamParticipant) : Bool :=
  match p.member with
  | some m =>
    match m.reference with
    | some r => strStartsWith r "Practitioner/"
    | none => false
  | none => false

/-- The CareTeam search subject query `Patient/id` of line 352. -/
def careTeamSubjectQuery (patient : Patient) : String :=
  let pid := jsStr patient.id
  s!"Patient/{pid}"

/-- Lines 369-373: the `Patient.generalPractitioner` fallback.  The guard
`patient.generalPractitioner?.[0]?.reference` is JS-truthy only when the
first entry exists and its reference is a nonempty string. -/
def generalPractitionerFallback (env : Env) (patient : Patient) : M (Option Practitioner) :=
  match patient.generalPractitioner with
  | some (gp :: _) =>
    match gp.reference with
    | some r =>
      if r ≠ "" then do
        let doc ← doReadPractitioner env (some gp)
        pure (some doc)
      else pure none
    | none => pure none
  | _ => pure none

/-- The `try` body of `findPrimaryDoctor` (lines 350-375): CareTeam search
(status active), first result, first practitioner participant, resolve;
otherwise the general practitioner fallback; otherwise null. -/
def findPrimaryDoctorBody (env : Env) (patient : Patient) : M (Option Practitioner) := do
  let careTeams ← doSearchCareTeams env (careTeamSubjectQuery patient)
  match careTeams with
  | careTeam :: _ =>
    match (careTeam.participant.getD []).find? participantIsPractitioner with
    | some practitionerParticipant =>
      match practitionerParticipant.member with
      | some m =>
        match m.reference with
        | some r =>
          if r ≠ "" then do
            let doc ← doReadPractitioner env (some m)
            pure (some doc)
          else generalPractitionerFallback env patient
        | none => generalPractitionerFallback env patient
      | none => generalPractitionerFallback env patient
    | none => generalPractitionerFallback env patient
  | [] => generalPractitionerFallback env patient

/-- Lines 348-380: the whole body runs inside `try ... catch` returning
null on any thrown error. -/
def findPrimaryDoctor (env : Env) (patient : Patient) : M (Option Practitioner) := fun tr =>
  match findPrimaryDoctorBody env patient tr with
  | (Except.ok r, tr') => (Except.ok r, tr')
  | (Except.error _, tr') => (Except.ok none, tr')

/-- Lines 448-455: the first telecom entry with system email and use work;
`emailContact?.value || null` is null when the value is missing or empty. -/
def getDoctorEmail (doctor : Practitioner) : Option String :=
  match (doctor.telecom.getD []).find?
      (fun contact => contact.system == some "email" && contact.use == some "work") with
  | some contact =>
    match contact.value with
    | some v => if v ≠ "" then some v else none
    | none => none
  | none => none

/-- Lines 457-569: the HTML and plain-text email bodies.  The surrounding
prose and inline CSS are abbreviated; every piece of interpolated data
(names, localized date, values, elevation flags, observation link) is kept.
No property observes these strings. -/
def generateDoctorEmailContent (env : Env) (patient : Patient) (doctor : Practitioner)
    (systolic diastolic : JSNumber) (observation : Observation) : String × String :=
  let patientName := (jsOrStr (firstGiven patient.name) "" ++ " " ++
    jsOrStr (firstFamily patient.name) "").trim
  let doctorName := (jsOrStr (firstGiven doctor.name) "" ++ " " ++
    jsOrStr (firstFamily doctor.name) "Doctor").trim
  let measurementDate := env.toLocale (observation.effectiveDateTime.getD "")
  let ss := systolic.render
  let ds := diastolic.render
  let sysState := if systolic.gt 140 then s!"🔴 Sistólica elevada ({ss} > 140 mmHg)"
    else "🟢 Sistólica normal"
  let diaState := if diastolic.gt 90 then s!"🔴 Diastólica elevada ({ds} > 90 mmHg)"
    else "🟢 Diastólica normal"
  let oid := jsStr observation.id
  let overall := if systolic.gt 140 || diastolic.gt 90 then "ELEVADA" else "NORMAL"
  let sysFlag := if systolic.gt 140 then "(ELEVADA - >140)" else "(NORMAL)"
  let diaFlag := if diastolic.gt 90 then "(ELEVADA - >90)" else "(NORMAL)"
  let html := s!"<html><body>🚨 ALERTA - PRESIÓN ARTERIAL ELEVADA. Estimado/a Dr./Dra. {doctorName}, su paciente {patientName} presenta valores elevados. Paciente: {patientName}. Fecha y Hora: {measurementDate}. Presión Arterial: {ss}/{ds} mmHg. Estado: {sysState} {diaState}. Ver: https://cardio.epa-bienestar.com.ar/health-record/Observation/{oid}</body></html>"
  let text := s!"\n🚨 ALERTA - PRESIÓN ARTERIAL ELEVADA\nEPA Bienestar IA - Sistema de Monitoreo Cardiovascular\n\nEstimado/a Dr./Dra. {doctorName},\n\nSu paciente {patientName} presenta valores elevados de presión arterial que requieren su atención.\n\nDETALLES DE LA MEDICIÓN:\n- Paciente: {patientName}\n- Fecha y Hora: {measurementDate}\n- Presión Arterial: {ss}/{ds} mmHg\n- Estado: {overall}\n\nVALORES ESPECÍFICOS:\n- Sistólica: {ss} mmHg {sysFlag}\n- Diastólica: {ds} mmHg {diaFlag}\n\nVer detalles completos: https://cardio.epa-bienestar.com.ar/health-record/Observation/{oid}\n"
  (html, text)

/-- The `SendEmailCommand` of lines 401-433: doctor To, admin Cc, subject
naming the patient, HTML and text bodies, two message tags. -/
def doctorEmailCommand (env : Env) (patient : Patient) (doctor : Practitioner)
    (systolic diastolic : JSNumber) (observation : Observation)
    (doctorEmail : String) : EmailCommand :=
  let emailContent := generateDoctorEmailContent env patient doctor systolic diastolic observation
  let fromEmail := env.fromEmailVar.getD "alertas@epa-bienestar.com.ar"
  let adminEmail := env.adminEmailVar.getD "admin@epa-bienestar.com.ar"
  let pg := jsStr (firstGiven patient.name)
  let pf := jsStr (firstFamily patient.name)
  { source := fromEmail
    toAddresses := [doctorEmail]
    ccAddresses := [adminEmail]
    subject := s!"🚨 EPA Bienestar IA - Alerta HTA: {pg} {pf}"
    htmlBody := some emailContent.1
    textBody := some emailContent.2
    tags := [("Type", "BloodPressureAlert"), ("PatientId", jsOrStr patient.id "unknown")] }

/-- The AuditEvent literal of lines 660-720. -/
def auditEventFor (env : Env) (patient : Patient) (recipient : Practitioner) : AuditEvent :=
  let pid := jsStr patient.id
  let rid := jsStr recipient.id
  { type := some
      { code := some "rest"
        system := some "http://terminology.hl7.org/CodeSystem/audit-event-type"
        display := some "RESTful Operation" }
    subtype := some
      [{ code := some "email-sent"
         system := some "http://epa-bienestar.com.ar/audit-codes"
         display := some "Email Sent" }]
    action := some "C"
    recorded := some env.now
    outcome := some "0"
    agent := some
      [{ type := some
           { coding := some
               [{ code := some "humanuser"
                  system := some "http://terminology.hl7.org/CodeSystem/extra-security-role-type"
                  display := some "human user" }] }
         who := some { display := some "EPA Bienestar IA Bot" }
         requestor := some false }]
    source := some
      { observer := some { display := some "EPA Bienestar IA System" }
        type := some
          [{ code := some "4"
             system := some "http://terminology.hl7.org/CodeSystem/security-source-type"
             display := some "Application Server" }] }
    entity := some
      [{ what := some { reference := some s!"Patient/{pid}" }
         type := some
           { code := some "1"
             system := some "http://terminology.hl7.org/CodeSystem/audit-entity-type"
             display := some "Person" } },
       { what := some { reference := some s!"Practitioner/{rid}" }
         type := some
           { code := some "1"
             system := some "http://terminology.hl7.org/CodeSystem/audit-entity-type"
             display := some "Person" } }] }

/-- Lines 653-728: create the AuditEvent inside `try ... catch` that only
logs a failure, never rethrows. -/
def logEmailSent (env : Env) (patient : Patient) (recipient : Practitioner)
    (_messageId : String) : M Unit := fun tr =>
  match doCreateAudit env (auditEventFor env patient recipient) tr with
  | (Except.ok _, tr') => (Except.ok (), tr')
  | (Except.error _, tr') => (Except.ok (), tr')

/-- Lines 382-446: look up the doctor work email (early return when
absent), build and send the SES command, then audit-log the send.  The
surrounding `try ... catch` rethrows the caught error, so it is the
identity on the exception flow and is not modelled separately. -/
def sendEmailToDoctor (env : Env) (patient : Patient) (doctor : Practitioner)
    (systolic diastolic : JSNumber) (observation : Observation) : M Unit :=
  match getDoctorEmail doctor with
  | none => pure ()
  | some doctorEmail => do
    let result ←
      doSesSend env (doctorEmailCommand env patient doctor systolic diastolic observation
        doctorEmail)
    logEmailSent env patient doctor result

/-- The Communication literal of lines 579-612 (tag
`doctor-email-notification`); the payload records that an email was sent.
The payload concatenation is grouped so that its fixed head is explicit. -/
def doctorNotificationCommunication (env : Env) (patient : Patient) (doctor : Practitioner)
    (systolic diastolic : JSNumber) : Communication :=
  let pid := jsStr patient.id
  let did := jsStr doctor.id
  let dg := jsStr (firstGiven doctor.name)
  let df := jsStr (firstFamily doctor.name)
  let pg := jsStr (firstGiven patient.name)
  let pf := jsStr (firstFamily patient.name)
  let ss := systolic.render
  let ds := diastolic.render
  { status := some "completed"
    category := some
      [{ coding := some
           [{ code := some "notification"
              system := some "http://terminology.hl7.org/CodeSystem/communication-category"
              display := some "Notification" }] }]
    priority := some "urgent"
    subject := some { reference := some s!"Patient/{pid}" }
    recipient := some [{ reference := some s!"Practitioner/{did}" }]
    sender := some { display := some "Sistema EPA Bienestar IA" }
    topic := some { text := some "Notificación médica: Presión arterial elevada" }
    sent := some env.now
    payload := some
      [{ contentString := some
           ("Email enviado al Dr./Dra. " ++
             (dg ++ (" " ++ (df ++ (" notificando presión arterial elevada del paciente " ++
               (pg ++ (" " ++ (pf ++ (": " ++ (ss ++ ("/" ++ (ds ++ " mmHg")))))))))))) }]
    meta := some
      { tag := some
          [{ system := some "http://epa-bienestar.com.ar/tags"
             code := some "doctor-email-notification" }] } }

/-- Lines 571-615: build and create the doctor notification. -/
def createDoctorNotificationCommunication (env : Env) (patient : Patient)
    (doctor : Practitioner) (systolic diastolic : JSNumber) : M Unit := do
  let _ ← doCreateComm env (doctorNotificationCommunication env patient doctor systolic diastolic)
  pure ()

/-- The fallback `SendEmailCommand` of lines 626-643: admin To, no Cc,
plain text only. -/
def adminEmailCommand (env : Env) (patient : Patient)
    (systolic diastolic : JSNumber) : EmailCommand :=
  let fromEmail := env.fromEmailVar.getD "alertas@epa-bienestar.com.ar"
  let adminEmail := env.adminEmailVar.getD "admin@epa-bienestar.com.ar"
  let pg := jsStr (firstGiven patient.name)
  let pf := jsStr (firstFamily patient.name)
  let ss := systolic.render
  let ds := diastolic.render
  { source := fromEmail
    toAddresses := [adminEmail]
    subject := s!"🚨 EPA Bienestar IA - Paciente sin médico asignado con HTA: {pg}"
    textBody := some
      s!"ALERTA: El paciente {pg} {pf} presenta presión arterial elevada ({ss}/{ds} mmHg) pero no tiene médico de cabecera asignado. Requiere atención administrativa." }

/-- Lines 617-651: send the fallback admin email inside `try ... catch`
that only logs a failure, never rethrows. -/
def sendEmailToSystemAdmin (env : Env) (patient : Patient)
    (systolic diastolic : JSNumber) : M Unit := fun tr =>
  match doSesSend env (adminEmailCommand env patient systolic diastolic) tr with
  | (Except.ok _, tr') => (Except.ok (), tr')
  | (Except.error _, tr') => (Except.ok (), tr')

/-- Lines 265-299: read the patient, create the alert Communication (the
promise is awaited before the next step), resolve the doctor; with a
doctor send the email then record the notification, otherwise fall back
to the admin email. -/
def handleHighBloodPressureWithEmail (env : Env) (observation : Observation)
    (systolic diastolic : JSNumber) : M Unit := do
  let patient ← doReadPatient env observation.subject
  let _communication ← createBloodPressureCommunication env patient observation systolic diastolic
  let primaryDoctor ← findPrimaryDoctor env patient
  match primaryDoctor with
  | some doctor => do
    sendEmailToDoctor env patient doctor systolic diastolic observation
    createDoctorNotificationCommunication env patient doctor systolic diastolic
  | none => sendEmailToSystemAdmin env patient systolic diastolic

/-- Lines 218-239: the email bot entry point. -/
def handler (env : Env) (observation : Observation) : M Unit :=
  if !(isBloodPressureObservation observation) then pure ()
  else
    let sd := extractBloodPressureValues observation
    if sd.1.gt 140 || sd.2.gt 90 then
      handleHighBloodPressureWithEmail env observation sd.1 sd.2
    else pure ()

end EmailBot

/-! ### Claim theorems -/

/-- C2: for every Observation, `isBloodPressureObservation` is true iff
some entry of `code.coding` has code 85354-9 and system loinc; it is false
whenever `code` or `code.coding` is absent (and, being a total function,
never raises). -/
theorem isBloodPressureObservation_spec :
    (∀ obs : Observation,
      isBloodPressureObservation obs = true ↔
        ∃ c ∈ obsCodings obs, c.code = some "85354-9" ∧ c.system = some "http://loinc.org")
    ∧ (∀ obs : Observation, isBloodPressureObservation { obs with code := none } = false)
    ∧ (∀ (obs : Observation) (cc : CodeableConcept),
        isBloodPressureObservation { obs with code := some { cc with coding := none } } = false) := by
  refine ⟨fun obs => ?_, fun obs => rfl, fun obs cc => rfl⟩
  cases hc : obs.code with
  | none => simp [isBloodPressureObservation, obsCodings, hc]
  | some cc =>
    cases hcc : cc.coding with
    | none => simp [isBloodPressureObservation, obsCodings, hc, hcc]
    | some codings =>
      simp [isBloodPressureObservation, obsCodings, hc, hcc, List.any_eq_true,
        Bool.and_eq_true, beq_iff_eq]

/-- C8: for the blood-pressure label, `getMeasurementObject` produces
exactly two components, diastolic (8462-4) carrying `Number(firstValue)`
and systolic (8480-6) carrying `Number(secondValue)`, both in mm[Hg];
for firstValue 80 and secondValue 120 the diastolic value is 80 and the
systolic value is 120; the output is a pure function of the arguments, and
everything except the timestamp is invocation independent. -/
theorem getMeasurementObject_bloodPressure_values :
    (∀ (subject : Ref) (firstValue secondValue now : String),
      componentCodes (getMeasurementObject subject "Presión Arterial" firstValue
          (some secondValue) now) = [some "8462-4", some "8480-6"]
      ∧ ((getMeasurementObject subject "Presión Arterial" firstValue
            (some secondValue) now).component.getD []).map componentValue =
          [some (toNumber (some firstValue)), some (toNumber (some secondValue))]
      ∧ ((getMeasurementObject subject "Presión Arterial" firstValue
            (some secondValue) now).component.getD []).map
              (fun c => c.valueQuantity.bind Quantity.unit) = [some "mm[Hg]", some "mm[Hg]"])
    ∧ toNumber (some "80") = JSNumber.int 80
    ∧ toNumber (some "120") = JSNumber.int 120
    ∧ (∀ (subject : Ref) (firstValue : String) (secondValue : Option String) (now now' : String),
        (getMeasurementObject subject "Presión Arterial" firstValue secondValue now).component =
          (getMeasurementObject subject "Presión Arterial" firstValue secondValue now').component) := by
  exact ⟨fun subject firstValue secondValue now => ⟨rfl, rfl, rfl⟩,
    by decide, by decide, fun subject firstValue secondValue now now' => rfl⟩

/-- C4 counterexample: for the blood-pressure label the top-level
`code.coding[0].code` is the panel code 85354-9, which is neither of the
codes (8462-4 diastolic, 8480-6 systolic) the §4.1 table lists for blood
pressure, so the claimed reading fails at this input. -/
theorem getMeasurementObject_bp_topCode_counterexample :
    codeCoding0 (getMeasurementObject {} "Presión Arterial" "120" (some "80") "t") =
      some "85354-9"
    ∧ (some "85354-9" : Option String) ≠ some "8462-4"
    ∧ (some "85354-9" : Option String) ≠ some "8480-6" := by
  refine ⟨rfl, by decide, by decide⟩

/-- C4 (amended): for the five single-value labels the top-level
`code.coding[0].code` is the §4.1 LOINC code; for the blood-pressure label
the top-level code is the panel code 85354-9 while the codes 8462-4
(diastolic) and 8480-6 (systolic) of the table appear as the two
components; any unrecognized label yields exactly the stub Observation
with no other fields. -/
theorem getMeasurementObject_codeTable :
    (∀ (subject : Ref) (fv : String) (sv : Option String) (now : String),
      codeCoding0 (getMeasurementObject subject "Presión Arterial" fv sv now) = some "85354-9"
      ∧ componentCodes (getMeasurementObject subject "Presión Arterial" fv sv now) =
          [some "8462-4", some "8480-6"]
      ∧ codeCoding0 (getMeasurementObject subject "Temperatura Axilar" fv sv now) = some "8310-5"
      ∧ (getMeasurementObject subject "Temperatura Axilar" fv sv now).code.bind
          CodeableConcept.coding = some
            [{ code := some "8310-5", system := some "http://loinc.org"
               display := some "Body temperature" },
             { code := some "8331-1", system := some "http://loinc.org"
               display := some "Oral temperature" }]
      ∧ codeCoding0 (getMeasurementObject subject "Altura" fv sv now) = some "8302-2"
      ∧ codeCoding0 (getMeasurementObject subject "Frecuencia Respiratoria" fv sv now) =
          some "9279-1"
      ∧ codeCoding0 (getMeasurementObject subject "Frecuencia Cardíaca" fv sv now) =
          some "8867-4"
      ∧ codeCoding0 (getMeasurementObject subject "Peso" fv sv now) = some "29463-7")
    ∧ (∀ (subject : Ref) (type fv : String) (sv : Option String) (now : String),
        type ∉ recognizedLabels → getMeasurementObject subject type fv sv now = {}) := by
  constructor
  · intro subject fv sv now
    exact ⟨rfl, rfl, rfl, rfl, rfl, rfl, rfl, rfl⟩
  · intro subject ty fv sv now h
    simp only [recognizedLabels, List.mem_cons, List.not_mem_nil, or_false, not_or] at h
    obtain ⟨h1, h2, h3, h4, h5, h6⟩ := h
    simp [getMeasurementObject, h1, h2, h3, h4, h5, h6]

/-- C4 witness: the second part of the table theorem applied to a concrete
unrecognized label. -/
theorem getMeasurementObject_codeTable_witness :
    "Oxígeno" ∉ recognizedLabels
    ∧ getMeasurementObject {} "Oxígeno" "1" none "t" = {} :=
  ⟨by decide, getMeasurementObject_codeTable.2 {} "Oxígeno" "1" none "t" (by decide)⟩

/-- C1: with a blood-pressure observation in hand, the alert handler runs
the alert handling iff `systolic > 140 OR diastolic > 90` holds with
strict comparisons: on false the handler completes with no effect, on true
it runs `handleHighBloodPressure`; on integers the condition is exactly
`140 < systolic OR 90 < diastolic`, so 140/90 triggers nothing while
systolic 141 (any diastolic) or diastolic 91 (any systolic) triggers the
handling. -/
theorem alertHandler_threshold_gate :
    (∀ (env : Env) (obs : Observation) (s d : JSNumber) (tr : List Event),
        isBloodPressureObservation obs = true →
        extractBloodPressureValues obs = (s, d) →
        (s.gt 140 || d.gt 90) = false →
        AlertBot.handler env obs tr = (Except.ok (), tr))
    ∧ (∀ (env : Env) (obs : Observation) (s d : JSNumber) (tr : List Event),
        isBloodPressureObservation obs = true →
        extractBloodPressureValues obs = (s, d) →
        (s.gt 140 || d.gt 90) = true →
        AlertBot.handler env obs tr = AlertBot.handleHighBloodPressure env obs s d tr)
    ∧ (∀ a b : Int,
        ((JSNumber.int a).gt 140 || (JSNumber.int b).gt 90) = true ↔ 140 < a ∨ 90 < b)
    ∧ ((JSNumber.int 140).gt 140 || (JSNumber.int 90).gt 90) = false
    ∧ (∀ d : JSNumber, ((JSNumber.int 141).gt 140 || d.gt 90) = true)
    ∧ (∀ s : JSNumber, (s.gt 140 || (JSNumber.int 91).gt 90) = true) := by
  refine ⟨?_, ?_, ?_, by decide, ?_, ?_⟩
  · intro env obs s d tr hbp hsd helev
    simp [AlertBot.handler, hbp, hsd, helev, M.pure_apply]
  · intro env obs s d tr hbp hsd helev
    simp [AlertBot.handler, hbp, hsd, helev]
  · intro a b
    simp [JSNumber.gt, Bool.or_eq_true, decide_eq_true_eq]
  · intro d
    simp [JSNumber.gt, Bool.or_eq_true]
  · intro s
    have : (JSNumber.int 91).gt 90 = true := by decide
    simp [this]

/-- A blood-pressure observation sitting exactly on the 140/90 boundary. -/
def obsBoundary : Observation :=
  { code := some
      { coding := some [{ code := some "85354-9", system := some "http://loinc.org" }] }
    component := some
      [{ code := some { coding := some [{ code := some "8480-6" }] }
         valueQuantity := some { value := some (JSNumber.int 140) } },
       { code := some { coding := some [{ code := some "8462-4" }] }
         valueQuantity := some { value := some (JSNumber.int 90) } }] }

/-- C1 witness: at the exact 140/90 boundary the handler completes without
any alert handling. -/
theorem alertHandler_threshold_gate_witness :
    isBloodPressureObservation obsBoundary = true
    ∧ AlertBot.handler {} obsBoundary [] = (Except.ok (), []) :=
  ⟨by decide, alertHandler_threshold_gate.1 {} obsBoundary (JSNumber.int 140)
    (JSNumber.int 90) [] (by decide) (by decide) (by decide)⟩

/-- The systolic value the C3 claim predicts: the `valueQuantity.value` of
the LAST component whose first coding code is 8480-6 (the claim wording,
with no truthiness condition). -/
def specSystolicLastMatch (obs : Observation) : Option JSNumber :=
  (((obs.component.getD []).filter
      (fun c => componentCode c == some "8480-6")).getLast?).bind componentValue

/-- Duplicate systolic components, the second carrying the value 0. -/
def obsDupZero : Observation :=
  { component := some
      [{ code := some { coding := some [{ code := some "8480-6" }] }
         valueQuantity := some { value := some (JSNumber.int 150) } },
       { code := some { coding := some [{ code := some "8480-6" }] }
         valueQuantity := some { value := some (JSNumber.int 0) } }] }

/-- C3 counterexample: with duplicate systolic components whose last value
is 0, the claim predicts systolic 0 (last match wins), but the extractor
skips the falsy value 0 and returns 150. -/
theorem extract_lastMatch_counterexample :
    specSystolicLastMatch obsDupZero = some (JSNumber.int 0)
    ∧ (extractBloodPressureValues obsDupZero).1 = JSNumber.int 150
    ∧ JSNumber.int 150 ≠ JSNumber.int 0 := by
  refine ⟨by decide, by decide, by decide⟩

/-- The component values that can win a scan for `targetCode`: value
present and JS-truthy (nonzero, non-NaN) with a matching first coding
code. -/
def matchingTruthyValues (targetCode : String) (comps : List ObservationComponent) :
    List JSNumber :=
  comps.filterMap fun component =>
    match componentValue component with
    | some v =>
      if componentCode component == some targetCode && v.truthy then some v else none
    | none => none

/-- The default of a `getLast?` after a cons moves into the head. -/
theorem getLast?_getD_cons (v a : α) (l : List α) :
    ((v :: l).getLast?).getD a = (l.getLast?).getD v := by
  cases l with
  | nil => rfl
  | cons x xs =>
    obtain ⟨z, hz⟩ := Option.isSome_iff_exists.mp
      (List.getLast?_isSome.mpr (List.cons_ne_nil x xs))
    rw [List.getLast?_cons_cons, hz]
    rfl

/-- The `forEach` of the extractor computes, from any start accumulator,
the last truthy matching value for each code. -/
theorem extractStep_foldl (comps : List ObservationComponent) :
    ∀ a b : JSNumber,
      comps.foldl extractStep (a, b) =
        ((matchingTruthyValues "8480-6" comps).getLast?.getD a,
         (matchingTruthyValues "8462-4" comps).getLast?.getD b) := by
  induction comps with
  | nil => intro a b; rfl
  | cons c rest ih =>
    intro a b
    rw [List.foldl_cons]
    cases hv : componentValue c with
    | none =>
      have hstep : extractStep (a, b) c = (a, b) := by simp [extractStep, hv]
      have hsys : matchingTruthyValues "8480-6" (c :: rest) =
          matchingTruthyValues "8480-6" rest := by
        simp [matchingTruthyValues, List.filterMap_cons, hv]
      have hdia : matchingTruthyValues "8462-4" (c :: rest) =
          matchingTruthyValues "8462-4" rest := by
        simp [matchingTruthyValues, List.filterMap_cons, hv]
      rw [hstep, hsys, hdia, ih a b]
    | some v =>
      by_cases htr : v.truthy = true
      · by_cases hcs : componentCode c = some "8480-6"
        · have hstep : extractStep (a, b) c = (v, b) := by
            simp [extractStep, hv, hcs, htr]
          have hsys : matchingTruthyValues "8480-6" (c :: rest) =
              v :: matchingTruthyValues "8480-6" rest := by
            simp [matchingTruthyValues, List.filterMap_cons, hv, hcs, htr]
          have hdia : matchingTruthyValues "8462-4" (c :: rest) =
              matchingTruthyValues "8462-4" rest := by
            simp [matchingTruthyValues, List.filterMap_cons, hv, hcs]
          rw [hstep, hsys, hdia, ih v b, getLast?_getD_cons]
        · by_cases hcd : componentCode c = some "8462-4"
          · have hstep : extractStep (a, b) c = (a, v) := by
              simp [extractStep, hv, hcs, hcd, htr]
            have hsys : matchingTruthyValues "8480-6" (c :: rest) =
                matchingTruthyValues "8480-6" rest := by
              simp [matchingTruthyValues, List.filterMap_cons, hv, hcs]
            have hdia : matchingTruthyValues "8462-4" (c :: rest) =
                v :: matchingTruthyValues "8462-4" rest := by
              simp [matchingTruthyValues, List.filterMap_cons, hv, hcd, htr]
            rw [hstep, hsys, hdia, ih a v, getLast?_getD_cons]
          · have hstep : extractStep (a, b) c = (a, b) := by
              simp [extractStep, hv, hcs, hcd]
            have hsys : matchingTruthyValues "8480-6" (c :: rest) =
                matchingTruthyValues "8480-6" rest := by
              simp [matchingTruthyValues, List.filterMap_cons, hv, hcs]
            have hdia : matchingTruthyValues "8462-4" (c :: rest) =
                matchingTruthyValues "8462-4" rest := by
              simp [matchingTruthyValues, List.filterMap_cons, hv, hcd]
            rw [hstep, hsys, hdia, ih a b]
      · have htr' : v.truthy = false := by
          cases hb : v.truthy with
          | true => exact absurd hb htr
          | false => rfl
        have hstep : extractStep (a, b) c = (a, b) := by
          simp [extractStep, hv, htr']
        have hsys : matchingTruthyValues "8480-6" (c :: rest) =
            matchingTruthyValues "8480-6" rest := by
          simp [matchingTruthyValues, List.filterMap_cons, hv, htr']
        have hdia : matchingTruthyValues "8462-4" (c :: rest) =
            matchingTruthyValues "8462-4" rest := by
          simp [matchingTruthyValues, List.filterMap_cons, hv, htr']
        rw [hstep, hsys, hdia, ih a b]

/-- C3 (amended): the extractor scans `component[]` left to right and
returns, for each of systolic (8480-6) and diastolic (8462-4), the value
of the LAST matching component whose value is present and JS-truthy
(nonzero, non-NaN); matching components with a missing, zero or NaN value
are skipped and never overwrite an earlier match; with no such component
the default 0 remains, so an Observation with no components yields
systolic 0 and diastolic 0. -/
theorem extract_lastTruthyMatch (obs : Observation) :
    extractBloodPressureValues obs =
      ((matchingTruthyValues "8480-6" (obs.component.getD [])).getLast?.getD (JSNumber.int 0),
       (matchingTruthyValues "8462-4" (obs.component.getD [])).getLast?.getD (JSNumber.int 0))
    ∧ extractBloodPressureValues {} = (JSNumber.int 0, JSNumber.int 0) :=
  ⟨extractStep_foldl (obs.component.getD []) (JSNumber.int 0) (JSNumber.int 0), rfl⟩

/-- A reference string selected by the participant predicate is nonempty. -/
theorem participant_ref_nonempty (pp : CareTeamParticipant) (m : Ref) (r : String)
    (hp : EmailBot.participantIsPractitioner pp = true)
    (hm : pp.member = some m) (hr : m.reference = some r) : r ≠ "" := by
  intro hemp
  subst hemp
  simp [EmailBot.participantIsPractitioner, hm, hr] at hp
  exact absurd hp (by simp [EmailBot.strStartsWith])

/-- C6: any data-store exception inside `findPrimaryDoctor` (the CareTeam
search or either reference read) is caught: the resolver returns null
instead of propagating, and in fact it never returns an error at all. -/
theorem findPrimaryDoctor_failOpen :
    (∀ (env : Env) (patient : Patient) (tr : List Event) (e : Err),
        env.searchCareTeams (EmailBot.careTeamSubjectQuery patient) = .error e →
        EmailBot.findPrimaryDoctor env patient tr = (Except.ok none, tr))
    ∧ (∀ (env : Env) (patient : Patient) (tr : List Event) (cts : List CareTeam)
        (team : CareTeam) (pp : CareTeamParticipant) (m : Ref) (e : Err),
        env.searchCareTeams (EmailBot.careTeamSubjectQuery patient) = .ok cts →
        cts.head? = some team →
        (team.participant.getD []).find? EmailBot.participantIsPractitioner = some pp →
        pp.member = some m →
        env.readPractitioner (some m) = .error e →
        EmailBot.findPrimaryDoctor env patient tr = (Except.ok none, tr))
    ∧ (∀ (env : Env) (patient : Patient) (tr : List Event) (cts : List CareTeam)
        (gp : Ref) (r : String) (e : Err),
        env.searchCareTeams (EmailBot.careTeamSubjectQuery patient) = .ok cts →
        (∀ team, cts.head? = some team →
          (team.participant.getD []).find? EmailBot.participantIsPractitioner = none) →
        (patient.generalPractitioner.getD []).head? = some gp →
        gp.reference = some r → r ≠ "" →
        env.readPractitioner (some gp) = .error e →
        EmailBot.findPrimaryDoctor env patient tr = (Except.ok none, tr))
    ∧ (∀ (env : Env) (patient : Patient) (tr : List Event),
        ∃ res, (EmailBot.findPrimaryDoctor env patient tr).1 = Except.ok res) := by
  refine ⟨?_, ?_, ?_, ?_⟩
  · intro env patient tr e hct
    have hbody : EmailBot.findPrimaryDoctorBody env patient tr = (Except.error e, tr) := by
      simp [EmailBot.findPrimaryDoctorBody, M.bind_apply, doSearchCareTeams, hct]
    simp [EmailBot.findPrimaryDoctor, hbody]
  · intro env patient tr cts team pp m e hct hhead hfind hm hread
    have hp : EmailBot.participantIsPractitioner pp = true := List.find?_some hfind
    cases cts with
    | nil => simp at hhead
    | cons team' rest =>
      have hteam : team' = team := by simpa using hhead
      subst hteam
      cases hr : m.reference with
      | none => simp [EmailBot.participantIsPractitioner, hm, hr] at hp
      | some r =>
        have hne : r ≠ "" := participant_ref_nonempty pp m r hp hm hr
        have hbody : EmailBot.findPrimaryDoctorBody env patient tr = (Except.error e, tr) := by
          simp [EmailBot.findPrimaryDoctorBody, M.bind_apply, doSearchCareTeams, hct,
            hfind, hm, hr, hne, doReadPractitioner, hread]
        simp [EmailBot.findPrimaryDoctor, hbody]
  · intro env patient tr cts gp r e hct hnofind hgp hr hne hread
    have hfall : EmailBot.generalPractitionerFallback env patient tr = (Except.error e, tr) := by
      cases hg : patient.generalPractitioner with
      | none => simp [hg] at hgp
      | some l =>
        cases l with
        | nil => simp [hg] at hgp
        | cons gp' rest =>
          have : gp' = gp := by simpa [hg] using hgp
          subst this
          simp [EmailBot.generalPractitionerFallback, hg, hr, hne, M.bind_apply,
            doReadPractitioner, hread]
    have hbody : EmailBot.findPrimaryDoctorBody env patient tr = (Except.error e, tr) := by
      cases cts with
      | nil =>
        simp [EmailBot.findPrimaryDoctorBody, M.bind_apply, doSearchCareTeams, hct, hfall]
      | cons team rest =>
        have hfind := hnofind team (by simp)
        simp [EmailBot.findPrimaryDoctorBody, M.bind_apply, doSearchCareTeams, hct,
          hfind, hfall]
    simp [EmailBot.findPrimaryDoctor, hbody]
  · intro env patient tr
    unfold EmailBot.findPrimaryDoctor
    cases hbody : EmailBot.findPrimaryDoctorBody env patient tr with
    | mk res tr' =>
      cases res with
      | ok v => exact ⟨v, rfl⟩
      | error e => exact ⟨none, rfl⟩

/-- A data store whose CareTeam search throws. -/
def envStoreDown : Env := { searchCareTeams := fun _ => Except.error "down" }

/-- C6 witness: with a throwing CareTeam search the resolver returns null. -/
theorem findPrimaryDoctor_failOpen_witness :
    envStoreDown.searchCareTeams (EmailBot.careTeamSubjectQuery {}) = Except.error "down"
    ∧ EmailBot.findPrimaryDoctor envStoreDown {} [] = (Except.ok none, []) :=
  ⟨rfl, findPrimaryDoctor_failOpen.1 envStoreDown {} [] "down" rfl⟩

/-- C7: the resolver takes the first CareTeam result and, within its
participants, the first entry whose member reference starts with
`Practitioner/` and resolves it; with no CareTeam or no such participant
it falls back to the patient `generalPractitioner[0]` reference when
present; when neither source yields a practitioner it returns null, not an
error. -/
theorem findPrimaryDoctor_resolution :
    (∀ (env : Env) (patient : Patient) (tr : List Event) (cts : List CareTeam)
        (team : CareTeam) (pp : CareTeamParticipant) (m : Ref) (doc : Practitioner),
        env.searchCareTeams (EmailBot.careTeamSubjectQuery patient) = .ok cts →
        cts.head? = some team →
        (team.participant.getD []).find? EmailBot.participantIsPractitioner = some pp →
        pp.member = some m →
        env.readPractitioner (some m) = .ok doc →
        EmailBot.findPrimaryDoctor env patient tr = (Except.ok (some doc), tr))
    ∧ (∀ (env : Env) (patient : Patient) (tr : List Event) (cts : List CareTeam)
        (gp : Ref) (r : String) (doc : Practitioner),
        env.searchCareTeams (EmailBot.careTeamSubjectQuery patient) = .ok cts →
        (∀ team, cts.head? = some team →
          (team.participant.getD []).find? EmailBot.participantIsPractitioner = none) →
        (patient.generalPractitioner.getD []).head? = some gp →
        gp.reference = some r → r ≠ "" →
        env.readPractitioner (some gp) = .ok doc →
        EmailBot.findPrimaryDoctor env patient tr = (Except.ok (some doc), tr))
    ∧ (∀ (env : Env) (patient : Patient) (tr : List Event) (cts : List CareTeam),
        env.searchCareTeams (EmailBot.careTeamSubjectQuery patient) = .ok cts →
        (∀ team, cts.head? = some team →
          (team.participant.getD []).find? EmailBot.participantIsPractitioner = none) →
        (∀ gp, (patient.generalPractitioner.getD []).head? = some gp →
          gp.reference.getD "" = "") →
        EmailBot.findPrimaryDoctor env patient tr = (Except.ok none, tr)) := by
  refine ⟨?_, ?_, ?_⟩
  · intro env patient tr cts team pp m doc hct hhead hfind hm hread
    have hp : EmailBot.participantIsPractitioner pp = true := List.find?_some hfind
    cases cts with
    | nil => simp at hhead
    | cons team' rest =>
      have hteam : team' = team := by simpa using hhead
      subst hteam
      cases hr : m.reference with
      | none => simp [EmailBot.participantIsPractitioner, hm, hr] at hp
      | some r =>
        have hne : r ≠ "" := participant_ref_nonempty pp m r hp hm hr
        have hbody : EmailBot.findPrimaryDoctorBody env patient tr =
            (Except.ok (some doc), tr) := by
          simp [EmailBot.findPrimaryDoctorBody, M.bind_apply, doSearchCareTeams, hct,
            hfind, hm, hr, hne, doReadPractitioner, hread, M.pure_apply]
        simp [EmailBot.findPrimaryDoctor, hbody]
  · intro env patient tr cts gp r doc hct hnofind hgp hr hne hread
    have hfall : EmailBot.generalPractitionerFallback env patient tr =
        (Except.ok (some doc), tr) := by
      cases hg : patient.generalPractitioner with
      | none => simp [hg] at hgp
      | some l =>
        cases l with
        | nil => simp [hg] at hgp
        | cons gp' rest =>
          have : gp' = gp := by simpa [hg] using hgp
          subst this
          simp [EmailBot.generalPractitionerFallback, hg, hr, hne, M.bind_apply,
            doReadPractitioner, hread, M.pure_apply]
    have hbody : EmailBot.findPrimaryDoctorBody env patient tr =
        (Except.ok (some doc), tr) := by
      cases cts with
      | nil =>
        simp [EmailBot.findPrimaryDoctorBody, M.bind_apply, doSearchCareTeams, hct, hfall]
      | cons team rest =>
        have hfind := hnofind team (by simp)
        simp [EmailBot.findPrimaryDoctorBody, M.bind_apply, doSearchCareTeams, hct,
          hfind, hfall]
    simp [EmailBot.findPrimaryDoctor, hbody]
  · intro env patient tr cts hct hnofind hnogp
    have hfall : EmailBot.generalPractitionerFallback env patient tr =
        (Except.ok none, tr) := by
      cases hg : patient.generalPractitioner with
      | none => simp [EmailBot.generalPractitionerFallback, hg, M.pure_apply]
      | some l =>
        cases l with
        | nil => simp [EmailBot.generalPractitionerFallback, hg, M.pure_apply]
        | cons gp' rest =>
          have hgp := hnogp gp' (by simp [hg])
          cases hr : gp'.reference with
          | none => simp [EmailBot.generalPractitionerFallback, hg, hr, M.pure_apply]
          | some r =>
            have : r = "" := by simpa [hr] using hgp
            subst this
            simp [EmailBot.generalPractitionerFallback, hg, hr, M.pure_apply]
    have hbody : EmailBot.findPrimaryDoctorBody env patient tr = (Except.ok none, tr) := by
      cases cts with
      | nil =>
        simp [EmailBot.findPrimaryDoctorBody, M.bind_apply, doSearchCareTeams, hct, hfall]
      | cons team rest =>
        have hfind := hnofind team (by simp)
        simp [EmailBot.findPrimaryDoctorBody, M.bind_apply, doSearchCareTeams, hct,
          hfind, hfall]
    simp [EmailBot.findPrimaryDoctor, hbody]

/-- A resolvable practitioner fixture. -/
def drFixture : Practitioner := { id := some "doc1" }

/-- A CareTeam whose only participant references a practitioner. -/
def teamFixture : CareTeam :=
  { participant := some [{ member := some { reference := some "Practitioner/doc1" } }] }

/-- A data store returning `teamFixture` and resolving any read to
`drFixture`. -/
def envCareTeam : Env :=
  { searchCareTeams := fun _ => Except.ok [teamFixture]
    readPractitioner := fun _ => Except.ok drFixture }

/-- C7 witness: the CareTeam path resolves the practitioner participant. -/
theorem findPrimaryDoctor_resolution_witness :
    (teamFixture.participant.getD []).find? EmailBot.participantIsPractitioner =
      some { member := some { reference := some "Practitioner/doc1" } }
    ∧ EmailBot.findPrimaryDoctor envCareTeam {} [] = (Except.ok (some drFixture), []) :=
  ⟨by decide, findPrimaryDoctor_resolution.1 envCareTeam {} [] [teamFixture] teamFixture
    { member := some { reference := some "Practitioner/doc1" } }
    { reference := some "Practitioner/doc1" } drFixture rfl rfl (by decide) rfl rfl⟩

/-- With every create succeeding, the notification loop appends one
`commCreated` event per practitioner, in list order. -/
theorem notifyLoop_allOk (env : Env) (patient : Patient) (s d : JSNumber) :
    ∀ (ps : List Practitioner) (tr : List Event),
      (∀ p ∈ ps,
        (env.createComm (AlertBot.practitionerNotification env p patient s d)).isOk = true) →
      AlertBot.notifyLoop env patient s d ps tr =
        (Except.ok (), tr ++ ps.map fun p =>
          Event.commCreated (AlertBot.practitionerNotification env p patient s d)) := by
  intro ps
  induction ps with
  | nil => intro tr _; simp [AlertBot.notifyLoop, M.pure_apply]
  | cons p rest ih =>
    intro tr h
    have hp := h p (by simp)
    cases hc : env.createComm (AlertBot.practitionerNotification env p patient s d) with
    | error e => rw [hc] at hp; exact absurd hp (by simp [Except.isOk, Except.toBool])
    | ok c =>
      have hrest := ih (tr ++ [Event.commCreated
        (AlertBot.practitionerNotification env p patient s d)]) (fun q hq => h q (by simp [hq]))
      simp only [AlertBot.notifyLoop, AlertBot.createPractitionerNotification, M.bind_apply,
        doCreateComm, hc, M.pure_apply]
      rw [hrest]
      simp

/-- A failing create aborts the loop: the error propagates and only the
practitioners before the failure were notified. -/
theorem notifyLoop_abort (env : Env) (patient : Patient) (s d : JSNumber)
    (p : Practitioner) (ps₂ : List Practitioner) (e : Err)
    (hfail : env.createComm (AlertBot.practitionerNotification env p patient s d) =
      Except.error e) :
    ∀ (ps₁ : List Practitioner) (tr : List Event),
      (∀ q ∈ ps₁,
        (env.createComm (AlertBot.practitionerNotification env q patient s d)).isOk = true) →
      AlertBot.notifyLoop env patient s d (ps₁ ++ p :: ps₂) tr =
        (Except.error e, tr ++ ps₁.map fun q =>
          Event.commCreated (AlertBot.practitionerNotification env q patient s d)) := by
  intro ps₁
  induction ps₁ with
  | nil =>
    intro tr _
    simp [AlertBot.notifyLoop, AlertBot.createPractitionerNotification, M.bind_apply,
      doCreateComm, hfail]
  | cons q rest ih =>
    intro tr h
    have hq := h q (by simp)
    cases hc : env.createComm (AlertBot.practitionerNotification env q patient s d) with
    | error e' => rw [hc] at hq; exact absurd hq (by simp [Except.isOk, Except.toBool])
    | ok c =>
      have hrest := ih (tr ++ [Event.commCreated
        (AlertBot.practitionerNotification env q patient s d)]) (fun q' hq' => h q' (by simp [hq']))
      simp only [List.cons_append, AlertBot.notifyLoop, AlertBot.createPractitionerNotification,
        M.bind_apply, doCreateComm, hc, M.pure_apply, List.append_eq]
      rw [hrest]
      simp

/-- C9: the direct-search variant creates one Communication tagged
`practitioner-alert` per practitioner returned by the search, sequentially
in search order; a failing create aborts the loop, leaves the remaining
practitioners unnotified, and the exception propagates out. -/
theorem notifyMedicalTeam_fanOut :
    (∀ (env : Env) (patient : Patient) (s d : JSNumber) (tr : List Event)
        (ps : List Practitioner),
        env.searchPractitioners patient.id = .ok ps →
        (∀ p ∈ ps,
          (env.createComm (AlertBot.practitionerNotification env p patient s d)).isOk = true) →
        AlertBot.notifyMedicalTeam env patient s d tr =
          (Except.ok (), tr ++ ps.map fun p =>
            Event.commCreated (AlertBot.practitionerNotification env p patient s d)))
    ∧ (∀ (env : Env) (patient : Patient) (s d : JSNumber) (tr : List Event)
        (ps₁ : List Practitioner) (p : Practitioner) (ps₂ : List Practitioner) (e : Err),
        env.searchPractitioners patient.id = .ok (ps₁ ++ p :: ps₂) →
        (∀ q ∈ ps₁,
          (env.createComm (AlertBot.practitionerNotification env q patient s d)).isOk = true) →
        env.createComm (AlertBot.practitionerNotification env p patient s d) = Except.error e →
        AlertBot.notifyMedicalTeam env patient s d tr =
          (Except.error e, tr ++ ps₁.map fun q =>
            Event.commCreated (AlertBot.practitionerNotification env q patient s d)))
    ∧ (∀ (env : Env) (patient : Patient) (s d : JSNumber) (p : Practitioner),
        firstTagCode (AlertBot.practitionerNotification env p patient s d) =
          some "practitioner-alert") := by
  refine ⟨?_, ?_, fun env patient s d p => rfl⟩
  · intro env patient s d tr ps hsearch hok
    simp only [AlertBot.notifyMedicalTeam, M.bind_apply, doSearchPractitioners, hsearch]
    exact notifyLoop_allOk env patient s d ps tr hok
  · intro env patient s d tr ps₁ p ps₂ e hsearch hok hfail
    simp only [AlertBot.notifyMedicalTeam, M.bind_apply, doSearchPractitioners, hsearch]
    exact notifyLoop_abort env patient s d p ps₂ e hfail ps₁ tr hok

/-- Two practitioner fixtures for the fan-out witness. -/
def drA : Practitioner := { id := some "a" }

/-- Second practitioner fixture. -/
def drB : Practitioner := { id := some "b" }

/-- A data store returning two practitioners for the direct search. -/
def envTwoDocs : Env := { searchPractitioners := fun _ => Except.ok [drA, drB] }

/-- C9 witness: with two practitioners and succeeding creates, exactly two
notifications are created in search order. -/
theorem notifyMedicalTeam_fanOut_witness :
    envTwoDocs.searchPractitioners (Patient.id {}) = Except.ok [drA, drB]
    ∧ AlertBot.notifyMedicalTeam envTwoDocs {} (JSNumber.int 150) (JSNumber.int 95) [] =
        (Except.ok (),
          [Event.commCreated
            (AlertBot.practitionerNotification envTwoDocs drA {} (JSNumber.int 150)
              (JSNumber.int 95)),
           Event.commCreated
            (AlertBot.practitionerNotification envTwoDocs drB {} (JSNumber.int 150)
              (JSNumber.int 95))]) :=
  ⟨rfl, notifyMedicalTeam_fanOut.1 envTwoDocs {} (JSNumber.int 150) (JSNumber.int 95) []
    [drA, drB] rfl (fun _ _ => rfl)⟩

/-- C5: in the email variant, a failing practitioner email send is
rethrown and propagates out of the handler (after the patient alert
Communication has been written), while a failing fallback admin email on
the no-practitioner path is caught and logged: the handler still completes
normally. -/
theorem emailFailurePolicy :
    (∀ (env : Env) (obs : Observation) (s d : JSNumber) (patient : Patient)
        (doctor : Practitioner) (c : Communication) (em : String) (e : Err) (tr : List Event),
        isBloodPressureObservation obs = true →
        extractBloodPressureValues obs = (s, d) →
        (s.gt 140 || d.gt 90) = true →
        env.readPatient obs.subject = .ok patient →
        env.createComm (EmailBot.bloodPressureCommunication env patient obs s d) = .ok c →
        (∀ tr', EmailBot.findPrimaryDoctor env patient tr' = (Except.ok (some doctor), tr')) →
        EmailBot.getDoctorEmail doctor = some em →
        env.sesSend (EmailBot.doctorEmailCommand env patient doctor s d obs em) =
          Except.error e →
        EmailBot.handler env obs tr =
          (Except.error e,
            tr ++ [Event.commCreated (EmailBot.bloodPressureCommunication env patient obs s d)]))
    ∧ (∀ (env : Env) (obs : Observation) (s d : JSNumber) (patient : Patient)
        (c : Communication) (e : Err) (tr : List Event),
        isBloodPressureObservation obs = true →
        extractBloodPressureValues obs = (s, d) →
        (s.gt 140 || d.gt 90) = true →
        env.readPatient obs.subject = .ok patient →
        env.createComm (EmailBot.bloodPressureCommunication env patient obs s d) = .ok c →
        (∀ tr', EmailBot.findPrimaryDoctor env patient tr' = (Except.ok none, tr')) →
        env.sesSend (EmailBot.adminEmailCommand env patient s d) = Except.error e →
        EmailBot.handler env obs tr =
          (Except.ok (),
            tr ++ [Event.commCreated (EmailBot.bloodPressureCommunication env patient obs s d)])) := by
  constructor
  · intro env obs s d patient doctor c em e tr hbp hsd helev hread hcomm hdoc hemail hsend
    simp [EmailBot.handler, hbp, hsd, helev, EmailBot.handleHighBloodPressureWithEmail,
      M.bind_apply, doReadPatient, hread, EmailBot.createBloodPressureCommunication,
      doCreateComm, hcomm, hdoc, EmailBot.sendEmailToDoctor, hemail, doSesSend, hsend]
  · intro env obs s d patient c e tr hbp hsd helev hread hcomm hdoc hsend
    simp [EmailBot.handler, hbp, hsd, helev, EmailBot.handleHighBloodPressureWithEmail,
      M.bind_apply, doReadPatient, hread, EmailBot.createBloodPressureCommunication,
      doCreateComm, hcomm, hdoc, EmailBot.sendEmailToSystemAdmin, doSesSend, hsend]

/-- An elevated blood-pressure observation (150/95). -/
def obsHigh : Observation :=
  { id := some "obs1"
    code := some
      { coding := some [{ code := some "85354-9", system := some "http://loinc.org" }] }
    component := some
      [{ code := some { coding := some [{ code := some "8480-6" }] }
         valueQuantity := some { value := some (JSNumber.int 150) } },
       { code := some { coding := some [{ code := some "8462-4" }] }
         valueQuantity := some { value := some (JSNumber.int 95) } }] }

/-- A patient with a stored general practitioner reference. -/
def patGP : Patient :=
  { id := some "pat1", generalPractitioner := some [{ reference := some "Practitioner/1" }] }

/-- A practitioner with a work email. -/
def drEmail : Practitioner :=
  { id := some "d1"
    telecom := some [{ system := some "email", use := some "work", value := some "doc@x" }] }

/-- A store resolving the general practitioner to `drEmail` while the SES
client throws on every send. -/
def envSesFail : Env :=
  { readPatient := fun _ => Except.ok patGP
    readPractitioner := fun _ => Except.ok drEmail
    sesSend := fun _ => Except.error "ses down" }

/-- C5 witness: the doctor email send fails and the error escapes the
handler, with only the patient alert Communication written. -/
theorem emailFailurePolicy_witness :
    envSesFail.sesSend (EmailBot.doctorEmailCommand envSesFail patGP drEmail (JSNumber.int 150)
      (JSNumber.int 95) obsHigh "doc@x") = Except.error "ses down"
    ∧ EmailBot.handler envSesFail obsHigh [] =
        (Except.error "ses down",
          [Event.commCreated (EmailBot.bloodPressureCommunication envSesFail patGP obsHigh
            (JSNumber.int 150) (JSNumber.int 95))]) :=
  ⟨rfl, emailFailurePolicy.1 envSesFail obsHigh (JSNumber.int 150) (JSNumber.int 95) patGP
    drEmail
    (EmailBot.bloodPressureCommunication envSesFail patGP obsHigh (JSNumber.int 150)
      (JSNumber.int 95))
    "doc@x" "ses down" [] (by decide) (by decide) (by decide) rfl rfl (fun _ => rfl) rfl rfl⟩

/-- C10: with a resolved practitioner lacking a work email telecom entry,
`sendEmailToDoctor` returns without sending and without auditing, yet the
handler still writes the `doctor-email-notification` Communication (whose
payload opens with the statement that an email was sent) and never sends
the admin fallback email: the full trace is exactly the two Communication
writes, with no email and no AuditEvent. -/
theorem emailHandler_noWorkEmail_path :
    ∀ (env : Env) (obs : Observation) (s d : JSNumber) (patient : Patient)
      (doctor : Practitioner) (c c' : Communication) (tr : List Event),
      isBloodPressureObservation obs = true →
      extractBloodPressureValues obs = (s, d) →
      (s.gt 140 || d.gt 90) = true →
      env.readPatient obs.subject = .ok patient →
      env.createComm (EmailBot.bloodPressureCommunication env patient obs s d) = .ok c →
      (∀ tr', EmailBot.findPrimaryDoctor env patient tr' = (Except.ok (some doctor), tr')) →
      EmailBot.getDoctorEmail doctor = none →
      env.createComm (EmailBot.doctorNotificationCommunication env patient doctor s d) =
        .ok c' →
      EmailBot.handler env obs tr =
        (Except.ok (),
          tr ++ [Event.commCreated (EmailBot.bloodPressureCommunication env patient obs s d),
                 Event.commCreated
                   (EmailBot.doctorNotificationCommunication env patient doctor s d)])
      ∧ firstTagCode (EmailBot.doctorNotificationCommunication env patient doctor s d) =
          some "doctor-email-notification"
      ∧ (∃ restText,
          firstPayload (EmailBot.doctorNotificationCommunication env patient doctor s d) =
            some ("Email enviado al Dr./Dra. " ++ restText)) := by
  intro env obs s d patient doctor c c' tr hbp hsd helev hread hcomm hdoc hemail hcomm2
  refine ⟨?_, rfl, ⟨_, rfl⟩⟩
  simp [EmailBot.handler, hbp, hsd, helev, EmailBot.handleHighBloodPressureWithEmail,
    M.bind_apply, doReadPatient, hread, EmailBot.createBloodPressureCommunication,
    doCreateComm, hcomm, hdoc, EmailBot.sendEmailToDoctor, hemail, M.pure_apply,
    EmailBot.createDoctorNotificationCommunication, hcomm2]

/-- A practitioner with no telecom entries at all. -/
def drNoEmail : Practitioner := { id := some "d2" }

/-- A store resolving the general practitioner to `drNoEmail`. -/
def envNoEmail : Env :=
  { readPatient := fun _ => Except.ok patGP
    readPractitioner := fun _ => Except.ok drNoEmail }

/-- C10 witness: the concrete run writes exactly the two Communications
and nothing else. -/
theorem emailHandler_noWorkEmail_path_witness :
    EmailBot.getDoctorEmail drNoEmail = none
    ∧ EmailBot.handler envNoEmail obsHigh [] =
        (Except.ok (),
          [Event.commCreated (EmailBot.bloodPressureCommunication envNoEmail patGP obsHigh
             (JSNumber.int 150) (JSNumber.int 95)),
           Event.commCreated (EmailBot.doctorNotificationCommunication envNoEmail patGP
             drNoEmail (JSNumber.int 150) (JSNumber.int 95))]) :=
  ⟨rfl,
    (emailHandler_noWorkEmail_path envNoEmail obsHigh (JSNumber.int 150) (JSNumber.int 95)
      patGP drNoEmail
      (EmailBot.bloodPressureCommunication envNoEmail patGP obsHigh (JSNumber.int 150)
        (JSNumber.int 95))
      (EmailBot.doctorNotificationCommunication envNoEmail patGP drNoEmail (JSNumber.int 150)
        (JSNumber.int 95))
      [] (by decide) (by decide) (by decide) rfl rfl (fun _ => rfl) rfl rfl).1⟩
